import Mathlib

/-!
# Verification of `call-stack-chart.js`

This file gives a shallow embedding of the call-stack chart module
(`src/call-stack-chart.js`) and proves the specified properties of it.

The module exports a single function `createCallStackChart(options)` that
  1. validates the `options` object field-by-field against a fixed
     expected-type table (`argumentTypeNames`), throwing on the first
     runtime-type mismatch,
  2. computes the total stack-frame size (`callStackFrameSize`),
  3. assembles a declarative chart description (a list of bar segments in
     three columns plus layout metadata) and hands it to the external
     renderer (`Plotly.newPlot`).

The embedding has three layers:

* a **typed layer** (`ArgumentType`, `callStackFrameSize`, `plotData`)
  describing the behaviour on well-typed options objects, with JavaScript
  numbers modelled as exact rationals `ℚ` (all arithmetic performed by the
  module — sums of byte sizes, halving, small literals — is exact in IEEE
  doubles on the intended inputs, so `ℚ` is a faithful model);
* a **dynamic layer** (`JSValue`, `createCallStackChart`) that models the
  untyped JavaScript semantics the validation code actually runs against:
  `typeof`, property lookup, truthiness, `+` with its coercions, and the
  `TypeError`s thrown by `callArgs.reduce`/destructuring on bad values;
* a **heap layer** (`HVal`, `Heap`, `createCallStackChartH`) that passes a
  store explicitly, so that the absence of mutation of the caller's
  `options` object is expressible: every source statement is a read or a
  fresh-object allocation, and we prove all pre-existing heap addresses
  are preserved.

The file models the first (exported, `id`-bearing) copy of
`createCallStackChart` in `src/call-stack-chart.js`; the second copy in the
same file is an earlier duplicate with identical validation logic (minus
the `id` field), identical frame-size formula and identical segment order,
differing only in that its bar segments carry no pattern shape.
-/

/-! ## Typed layer: the data model of a valid options object

Source: the `@typedef {Object} ArgumentType` block and the destructuring
at the top of `createCallStackChart` (`src/call-stack-chart.js`).
-/

/-- Source constant `RETURN_VARIABLE = 'Return Value'`. -/
def RETURN_VARIABLE : String := "Return Value"

/-- Source constant `BEFORE_CALL = 'Before Call'`. -/
def BEFORE_CALL : String := "Before Call"

/-- Source constant `DURING_CALL = 'During Call'`. -/
def DURING_CALL : String := "During Call"

/-- Source constant `AFTER_CALL = 'After Call'`. -/
def AFTER_CALL : String := "After Call"

/-- One element of `options.callArgs`: `{name, size, color}`. -/
structure CallArg where
  name : String
  size : ℚ
  color : String
deriving DecidableEq, Repr

/-- A well-typed options object, following the source's
`@typedef {Object} ArgumentType`. -/
structure ArgumentType where
  id : String
  title : String
  returnValueSize : ℚ
  returnValueOnCallStack : Bool
  callArgs : List CallArg
  linkRegister : Bool
  padding : ℚ
  yMax : ℚ
deriving DecidableEq, Repr

/-- The frame-size computation, transliterated from the source:

```js
const callStackFrameSize = 0
    + returnValueSize * (returnValueOnCallStack ? 1 : 0)
    + callArgs.reduce((acc, {size}) => acc + size, 0)
    + (linkRegister ? 4 : 0)
    + 4 // Frame Pointer
    + padding;
```
-/
def callStackFrameSize (o : ArgumentType) : ℚ :=
  0 + o.returnValueSize * (if o.returnValueOnCallStack then 1 else 0)
    + o.callArgs.foldl (fun acc a => acc + a.size) 0
    + (if o.linkRegister then 4 else 0)
    + 4
    + o.padding

/-- Modelled from the spec: the frame-size formula as the specification
states it, `frameSize = (returnValueOnCallStack ? returnValueSize : 0) +
sum(arg.size for arg in callArgs) + (linkRegister ? 4 : 0) + 4 + padding`.
Stated separately from `callStackFrameSize` (which is transliterated from
the code) so the two can be compared. -/
def specFrameSize (o : ArgumentType) : ℚ :=
  (if o.returnValueOnCallStack then o.returnValueSize else 0)
    + (o.callArgs.map CallArg.size).sum
    + (if o.linkRegister then 4 else 0)
    + 4
    + o.padding

/-- One bar segment, the variable part of the object built by the source's
`barStack(x, y, color, shape, text)` helper (the remaining fields of the
object literal — `type: 'bar'`, marker line style, pattern size/solidity,
text anchoring — are constants shared by all segments). -/
structure BarStack where
  x : String
  y : ℚ
  color : String
  shape : String
  text : String
deriving DecidableEq, Repr

/-- The source's `barStack` helper, restricted to its five parameters. -/
def barStack (x : String) (y : ℚ) (color shape text : String) : BarStack :=
  { x := x, y := y, color := color, shape := shape, text := text }

/-- Text of a per-argument segment: `` `Argument ${index} (${name})` ``. -/
def argText (index : Nat) (name : String) : String :=
  "Argument " ++ toString index ++ " (" ++ name ++ ")"

/-- The data array handed to `Plotly.newPlot`, transliterated from the
source (first copy, lines 187–198):

```js
[
  barStack(BEFORE_CALL, returnValueSize, 'lightgrey', '', RETURN_VARIABLE),
  barStack(DURING_CALL, returnValueSize,
    ...(returnValueOnCallStack ? ['lightgrey', ''] : ['lightblue', '/']),
    RETURN_VARIABLE),
  ...(linkRegister ? [barStack(DURING_CALL, 4, 'lightgreen', '', 'Link Register')] : []),
  barStack(DURING_CALL, 4, 'lightgreen', '', 'Frame Pointer'),
  ...callArgs.map(({name, size, color}, index) =>
    barStack(DURING_CALL, size, color, '', `Argument ${index} (${name})`)),
  ...(returnValueOnCallStack ? [barStack(DURING_CALL, returnValueSize, 'lightblue', '/', 'Return Value')] : []),
  barStack(DURING_CALL, padding, 'white', '', 'Padding'),
  barStack(AFTER_CALL, returnValueSize, 'lightblue', '', RETURN_VARIABLE)
]
```
-/
def plotData (o : ArgumentType) : List BarStack :=
  [barStack BEFORE_CALL o.returnValueSize "lightgrey" "" RETURN_VARIABLE,
   barStack DURING_CALL o.returnValueSize
     (if o.returnValueOnCallStack then "lightgrey" else "lightblue")
     (if o.returnValueOnCallStack then "" else "/") RETURN_VARIABLE]
  ++ (if o.linkRegister then
        [barStack DURING_CALL 4 "lightgreen" "" "Link Register"] else [])
  ++ [barStack DURING_CALL 4 "lightgreen" "" "Frame Pointer"]
  ++ o.callArgs.enum.map (fun p =>
        barStack DURING_CALL p.2.size p.2.color "" (argText p.1 p.2.name))
  ++ (if o.returnValueOnCallStack then
        [barStack DURING_CALL o.returnValueSize "lightblue" "/" "Return Value"] else [])
  ++ [barStack DURING_CALL o.padding "white" "" "Padding",
      barStack AFTER_CALL o.returnValueSize "lightblue" "" RETURN_VARIABLE]

/-- The During Call column: the segments of the data array whose x
category is `DURING_CALL`, in emission order (with `barmode: 'stack'`,
Plotly stacks them bottom-to-top in this order). -/
def duringCallSegments (o : ArgumentType) : List BarStack :=
  (plotData o).filter (fun b => b.x == DURING_CALL)

/-- The options object of the spec's worked example:
`returnValueSize=4, returnValueOnCallStack=false,
callArgs=[{name:"x",size:4,color:"red"}], linkRegister=true, padding=4`. -/
def exampleOptions : ArgumentType :=
  { id := "chart", title := "example", returnValueSize := 4,
    returnValueOnCallStack := false,
    callArgs := [{ name := "x", size := 4, color := "red" }],
    linkRegister := true, padding := 4, yMax := 24 }


/-! ## Dynamic layer: untyped JavaScript values

The validation code runs before anything is known about the fields of
`options`, so it is modelled against an untyped value domain mirroring the
JavaScript values that can appear there.
-/

/-- An untyped JavaScript value. `num` carries an exact rational;
`nan` is the number `NaN` (note `typeof NaN === 'number'`). Objects are
modelled by their own enumerable data properties; arrays by their element
list. -/
inductive JSValue where
  | str (s : String)
  | num (q : ℚ)
  | nan
  | bool (b : Bool)
  | null
  | undefined
  | arr (elems : List JSValue)
  | obj (fields : List (String × JSValue))

/-- JavaScript `typeof`. `typeof null` is famously `'object'`, and both
arrays and plain objects are `'object'`. -/
def typeofJS : JSValue → String
  | .str _ => "string"
  | .num _ => "number"
  | .nan => "number"
  | .bool _ => "boolean"
  | .null => "object"
  | .undefined => "undefined"
  | .arr _ => "object"
  | .obj _ => "object"

/-- JavaScript truthiness (`ToBoolean`). -/
def truthy : JSValue → Bool
  | .str s => !(s == "")
  | .num q => !(q == 0)
  | .nan => false
  | .bool b => b
  | .null => false
  | .undefined => false
  | .arr _ => true
  | .obj _ => true

/-- Property read on a value that is known not to be `null`/`undefined`
(the callers guard that case): named properties of plain objects are looked
up (first binding wins, as in a JavaScript object literal); reading a named
data property like `size` off a primitive or an array yields `undefined`. -/
def getProp : JSValue → String → JSValue
  | .obj fields, k => (fields.lookup k).getD .undefined
  | _, _ => .undefined

/-- An options argument: the enumerable properties of the object the
caller passes to `createCallStackChart`. -/
abbrev OptionsObject := List (String × JSValue)

/-- Property read on the options object itself: absent fields read as
`undefined`. -/
def getField (options : OptionsObject) (k : String) : JSValue :=
  (options.lookup k).getD .undefined

/-- The expected-type table, in the source's literal (= iteration) order:

```js
const argumentTypeNames = {
    id: 'string',
    title: 'string',
    returnValueSize: 'number',
    returnValueOnCallStack: 'boolean',
    callArgs: 'object',
    linkRegister: 'boolean',
    padding: 'number',
    yMax: 'number',
};
```

`Object.entries` enumerates these string keys in insertion order. -/
def argumentTypeNames : List (String × String) :=
  [("id", "string"), ("title", "string"), ("returnValueSize", "number"),
   ("returnValueOnCallStack", "boolean"), ("callArgs", "object"),
   ("linkRegister", "boolean"), ("padding", "number"), ("yMax", "number")]

/-- The validation loop

```js
Object.entries(argumentTypeNames).forEach(([arg, type]) => {
    if (typeof options[arg] !== type) {
        throw new Error(`Expected ${arg} to be of type ${type}`);
    }
});
```

throws at the first entry whose check fails; this function returns that
entry, or `none` when every check passes. -/
def firstTypeMismatch (options : OptionsObject) : Option (String × String) :=
  argumentTypeNames.find? (fun p => !(typeofJS (getField options p.1) == p.2))

/-- The message of the thrown validation error:
`` `Expected ${arg} to be of type ${type}` ``. -/
def validationMessage (arg ty : String) : String :=
  "Expected " ++ arg ++ " to be of type " ++ ty

/-- JavaScript `ToString`, as used by string concatenation and template
literals, on the values of this model. An array converts via
`Array.prototype.join(',')`, in which `null`/`undefined` elements print as
the empty string; a plain object prints as `[object Object]`. A rational
that is not an integer is printed `num/den` (an approximation of the
decimal expansion JavaScript would print; the module only ever stringifies
integer byte counts). -/
def toJSString : JSValue → String
  | .str s => s
  | .num q => if q.den = 1 then toString q.num else
      toString q.num ++ "/" ++ toString q.den
  | .nan => "NaN"
  | .bool b => if b then "true" else "false"
  | .null => "null"
  | .undefined => "undefined"
  | .obj _ => "[object Object]"
  | .arr l => String.intercalate "," (l.attach.map (fun e =>
      match e with
      | ⟨.null, _⟩ => ""
      | ⟨.undefined, _⟩ => ""
      | ⟨v, _⟩ => toJSString v))
decreasing_by
  rename_i h
  have := List.sizeOf_lt_of_mem h
  simp_wf
  omega

/-- JavaScript `ToPrimitive` for the values of this model: arrays and
objects convert to their string form, everything else is already
primitive. -/
def toPrimitiveJS : JSValue → JSValue
  | .arr l => .str (toJSString (.arr l))
  | .obj fields => .str (toJSString (.obj fields))
  | v => v

/-- `ToNumber` on the primitives that can reach the numeric branch of `+`
and `*` in this module: booleans and `null` coerce, `NaN` and `undefined`
poison the result (`none`). Numeric parsing of strings never arises here:
in `+` a string operand always takes the concatenation branch, and the only
`*` in the module multiplies the type-checked `returnValueSize` by a
numeric literal. -/
def toNumOpt : JSValue → Option ℚ
  | .num q => some q
  | .bool b => some (if b then 1 else 0)
  | .null => some 0
  | _ => none

/-- JavaScript `+`: after `ToPrimitive`, if either operand is a string the
result is the concatenation, otherwise both are converted to numbers and
added (with `NaN` propagating). -/
def jsAdd (a b : JSValue) : JSValue :=
  match toPrimitiveJS a, toPrimitiveJS b with
  | .str s, pb => .str (s ++ toJSString pb)
  | pa, .str s => .str (toJSString pa ++ s)
  | pa, pb =>
    match toNumOpt pa, toNumOpt pb with
    | some m, some n => .num (m + n)
    | _, _ => .nan

/-- JavaScript `*` restricted as in `toNumOpt`'s comment. -/
def jsMul (a b : JSValue) : JSValue :=
  match toNumOpt (toPrimitiveJS a), toNumOpt (toPrimitiveJS b) with
  | some m, some n => .num (m * n)
  | _, _ => .nan

/-- `callArgs.reduce((acc, {size}) => acc + size, 0)`, element by element.
Destructuring `{size}` of a `null` or `undefined` element throws a
`TypeError`; any other element works (a primitive's `size` property reads
as `undefined`). -/
def reduceSizes : List JSValue → JSValue → Except String JSValue
  | [], acc => Except.ok acc
  | e :: rest, acc =>
    match e with
    | .null => Except.error "TypeError: cannot destructure property of null"
    | .undefined => Except.error "TypeError: cannot destructure property of undefined"
    | _ => reduceSizes rest (jsAdd acc (getProp e "size"))

/-- A bar segment of the dynamic layer: `y` and `color` come from
unvalidated values, so they stay untyped. -/
structure JSBar where
  x : String
  y : JSValue
  color : JSValue
  shape : String
  text : String

/-- `callArgs.map(({name, size, color}, index) => barStack(DURING_CALL,
size, color, '', ...))`: destructuring a `null`/`undefined` element throws,
otherwise each element yields its segment in order. -/
def mapArgs : List JSValue → Nat → Except String (List JSBar)
  | [], _ => Except.ok []
  | e :: rest, index =>
    match e with
    | .null => Except.error "TypeError: cannot destructure property of null"
    | .undefined => Except.error "TypeError: cannot destructure property of undefined"
    | _ =>
      match mapArgs rest (index + 1) with
      | Except.ok bars =>
          Except.ok ({ x := DURING_CALL, y := getProp e "size",
                       color := getProp e "color", shape := "",
                       text := "Argument " ++ toString index ++ " ("
                         ++ toJSString (getProp e "name") ++ ")" } :: bars)
      | Except.error msg => Except.error msg

/-- The chart description handed to the renderer: the target element id,
the data array, and the layout values that depend on the options (title,
computed frame size, y-axis ceiling). The rest of the `layout` literal is
constant and its construction cannot fail. -/
structure JSChart where
  id : JSValue
  title : JSValue
  frameSize : JSValue
  yMax : JSValue
  data : List JSBar

/-- The body of `createCallStackChart` after validation has passed:
destructure the options, compute `callStackFrameSize` (the `reduce` throws
a `TypeError` when `callArgs` is not an array, e.g. `null`, which passes
the `typeof === 'object'` check), then assemble the data array. -/
def buildChart (options : OptionsObject) : Except String JSChart :=
  let id := getField options "id"
  let title := getField options "title"
  let returnValueSize := getField options "returnValueSize"
  let returnValueOnCallStack := getField options "returnValueOnCallStack"
  let callArgs := getField options "callArgs"
  let linkRegister := getField options "linkRegister"
  let padding := getField options "padding"
  let yMax := getField options "yMax"
  match callArgs with
  | .arr elems =>
    match reduceSizes elems (.num 0) with
    | Except.error msg => Except.error msg
    | Except.ok argSizeSum =>
      let callStackFrameSizeJS :=
        jsAdd (jsAdd (jsAdd (jsAdd (jsAdd (JSValue.num 0)
          (jsMul returnValueSize
            (if truthy returnValueOnCallStack then JSValue.num 1 else JSValue.num 0)))
          argSizeSum)
          (if truthy linkRegister then JSValue.num 4 else JSValue.num 0))
          (JSValue.num 4))
          padding
      match mapArgs elems 0 with
      | Except.error msg => Except.error msg
      | Except.ok argBars =>
        Except.ok
          { id := id, title := title, frameSize := callStackFrameSizeJS,
            yMax := yMax,
            data :=
              [{ x := BEFORE_CALL, y := returnValueSize,
                 color := JSValue.str "lightgrey", shape := "",
                 text := RETURN_VARIABLE },
               { x := DURING_CALL, y := returnValueSize,
                 color := (if truthy returnValueOnCallStack then
                   JSValue.str "lightgrey" else JSValue.str "lightblue"),
                 shape := (if truthy returnValueOnCallStack then "" else "/"),
                 text := RETURN_VARIABLE }]
              ++ (if truthy linkRegister then
                    [{ x := DURING_CALL, y := JSValue.num 4,
                       color := JSValue.str "lightgreen", shape := "",
                       text := "Link Register" }] else [])
              ++ [{ x := DURING_CALL, y := JSValue.num 4,
                    color := JSValue.str "lightgreen", shape := "",
                    text := "Frame Pointer" }]
              ++ argBars
              ++ (if truthy returnValueOnCallStack then
                    [{ x := DURING_CALL, y := returnValueSize,
                       color := JSValue.str "lightblue", shape := "/",
                       text := "Return Value" }] else [])
              ++ [{ x := DURING_CALL, y := padding,
                    color := JSValue.str "white", shape := "",
                    text := "Padding" },
                  { x := AFTER_CALL, y := returnValueSize,
                    color := JSValue.str "lightblue", shape := "",
                    text := RETURN_VARIABLE }] }
  | _ => Except.error "TypeError: callArgs.reduce is not a function"

/-- The exported `createCallStackChart`, at the dynamic layer: validate
against the expected-type table, throwing (`Except.error`) at the first
mismatch — in which case nothing after the loop runs and no chart
description is constructed — otherwise run the body. The final DOM side
effect (appending the attribution link) lies outside the chart-description
assembly modelled here. -/
def createCallStackChart (options : OptionsObject) : Except String JSChart :=
  match firstTypeMismatch options with
  | some (arg, ty) => Except.error (validationMessage arg ty)
  | none => buildChart options

/-! ## Heap layer: explicit store passing, for the frame condition

JavaScript objects are mutable references, so "`createCallStackChart`
never mutates its `options` argument" is stated against an explicit heap:
values are primitives or references, objects and arrays live at heap
addresses, every property access of the source is a read, and every object
literal of the source is an allocation of a fresh address. The function
threads the heap; the frame theorem says all pre-existing addresses keep
their contents.

Value-level arithmetic and stringification are abstracted here (non-number
operands go to `nan`, references display as `[object Object]`): the exact
coercion semantics lives in the dynamic layer above, and no coercion path
writes to the heap, which is all this layer tracks.
-/

/-- A heap-layer JavaScript value: a primitive, or a reference to a heap
cell. -/
inductive HVal where
  | str (s : String)
  | num (q : ℚ)
  | nan
  | bool (b : Bool)
  | null
  | undefined
  | ref (addr : Nat)
deriving DecidableEq, Repr

/-- A heap cell: a plain object (named fields) or an array (elements). -/
inductive HObj where
  | fields (l : List (String × HVal))
  | elems (l : List HVal)
deriving DecidableEq, Repr

/-- The heap: cell `a` is `h.get? a`. -/
abbrev Heap := List HObj

/-- `typeof` at the heap layer. -/
def typeofH : HVal → String
  | .str _ => "string"
  | .num _ => "number"
  | .nan => "number"
  | .bool _ => "boolean"
  | .null => "object"
  | .undefined => "undefined"
  | .ref _ => "object"

/-- Truthiness at the heap layer. -/
def truthyH : HVal → Bool
  | .str s => !(s == "")
  | .num q => !(q == 0)
  | .nan => false
  | .bool b => b
  | .null => false
  | .undefined => false
  | .ref _ => true

/-- Property read: dereference, then look the key up among an object's
fields; named data properties of arrays and primitives read as
`undefined`. A pure read — the heap is untouched. -/
def hGetField (h : Heap) (v : HVal) (k : String) : HVal :=
  match v with
  | .ref a =>
    match h.get? a with
    | some (.fields l) => (l.lookup k).getD .undefined
    | _ => .undefined
  | _ => .undefined

/-- Heap-layer `+` (value-abstracted, see the section comment). -/
def hAdd : HVal → HVal → HVal
  | .num m, .num n => .num (m + n)
  | _, _ => .nan

/-- Heap-layer `-`. -/
def hSub : HVal → HVal → HVal
  | .num m, .num n => .num (m - n)
  | _, _ => .nan

/-- Heap-layer `*`. -/
def hMul : HVal → HVal → HVal
  | .num m, .num n => .num (m * n)
  | _, _ => .nan

/-- Heap-layer `/` (the module only divides by the literal 2). -/
def hDiv : HVal → HVal → HVal
  | .num m, .num n => .num (m / n)
  | _, _ => .nan

/-- The validation loop at the heap layer: a pure fold of reads. -/
def firstTypeMismatchH (h : Heap) (options : HVal) : Option (String × String) :=
  argumentTypeNames.find? (fun p => !(typeofH (hGetField h options p.1) == p.2))

/-- `callArgs.reduce((acc, {size}) => acc + size, 0)` at the heap layer:
reads only, no heap returned. -/
def reduceSizesH (h : Heap) : List HVal → HVal → Except String HVal
  | [], acc => Except.ok acc
  | e :: rest, acc =>
    match e with
    | .null => Except.error "TypeError: cannot destructure property of null"
    | .undefined => Except.error "TypeError: cannot destructure property of undefined"
    | _ => reduceSizesH h rest (hAdd acc (hGetField h e "size"))

/-- Allocate a fresh cell at the end of the heap and return its
reference. The only operation of this layer that changes the heap. -/
def alloc (h : Heap) (o : HObj) : Heap × HVal :=
  (h ++ [o], HVal.ref h.length)

/-- Display of a value in a template literal (value-abstracted for
references, exact for the integers the module actually prints). -/
def displayH : HVal → String
  | .str s => s
  | .num q => if q.den = 1 then toString q.num else
      toString q.num ++ "/" ++ toString q.den
  | .nan => "NaN"
  | .bool b => if b then "true" else "false"
  | .null => "null"
  | .undefined => "undefined"
  | .ref _ => "[object Object]"

/-- The source's `barStack` helper at the heap layer: one object literal
with nested literals (`x: [x]`, `y: [y]`, `marker: {color, line: {...},
pattern: {...}}`), each literal a fresh allocation. -/
def barStackH (h : Heap) (x : String) (y : HVal) (color : HVal)
    (shape : String) (text : String) : Heap × HVal :=
  let (h1, xs) := alloc h (HObj.elems [HVal.str x])
  let (h2, ys) := alloc h1 (HObj.elems [y])
  let (h3, lineRef) := alloc h2 (HObj.fields
    [("color", HVal.str "black"), ("width", HVal.num 1)])
  let (h4, patternRef) := alloc h3 (HObj.fields
    [("shape", HVal.str shape), ("size", HVal.num 8), ("solidity", HVal.num (1/2))])
  let (h5, markerRef) := alloc h4 (HObj.fields
    [("color", color), ("line", lineRef), ("pattern", patternRef)])
  alloc h5 (HObj.fields
    [("x", xs), ("y", ys), ("type", HVal.str "bar"),
     ("hoverinfo", HVal.str "y"), ("marker", markerRef),
     ("textposition", HVal.str "inside"),
     ("insidetextanchor", HVal.str "middle"), ("text", HVal.str text)])

/-- The `layout` object literal (source lines 76–153) at the heap layer:
every nested literal is a fresh allocation; the two annotation `y` values
and the overlay-shape bounds are computed from `returnValueSize` and the
frame size exactly as in the source. -/
def layoutH (h : Heap) (title returnValueSize frameSize yMax : HVal) :
    Heap × HVal :=
  let (h1, xaxisRef) := alloc h (HObj.fields [("title", HVal.str "Call State")])
  let (h2, rangeRef) := alloc h1 (HObj.elems [HVal.num 0, yMax])
  let (h3, yaxisRef) := alloc h2 (HObj.fields
    [("title", HVal.str "Stack Usage (Bytes)"), ("range", rangeRef)])
  let (h4, uniformtextRef) := alloc h3 (HObj.fields
    [("mode", HVal.str "hide"), ("minsize", HVal.num 8)])
  let (h5, marginRef) := alloc h4 (HObj.fields
    [("l", HVal.num 40), ("r", HVal.num 0), ("t", HVal.num 100), ("b", HVal.num 40)])
  let (h6, font1Ref) := alloc h5 (HObj.fields
    [("color", HVal.str "grey"), ("size", HVal.num 12)])
  let (h7, ann1Ref) := alloc h6 (HObj.fields
    [("x", HVal.num (38/100)),
     ("y", hAdd returnValueSize (hDiv frameSize (HVal.num 2))),
     ("xref", HVal.str "x"), ("yref", HVal.str "y"),
     ("text", HVal.str "Function Call"), ("showarrow", HVal.bool false),
     ("font", font1Ref), ("textangle", HVal.num 270)])
  let (h8, font2Ref) := alloc h7 (HObj.fields
    [("color", HVal.str "grey"), ("size", HVal.num 12)])
  let (h9, ann2Ref) := alloc h8 (HObj.fields
    [("x", HVal.num (1/2)),
     ("y", hAdd (hAdd returnValueSize frameSize) (HVal.num 2)),
     ("xref", HVal.str "paper"), ("yref", HVal.str "y"),
     ("text", HVal.str (displayH frameSize ++ " Bytes")),
     ("showarrow", HVal.bool false), ("font", font2Ref)])
  let (h10, annListRef) := alloc h9 (HObj.elems [ann1Ref, ann2Ref])
  let (h11, line1Ref) := alloc h10 (HObj.fields
    [("color", HVal.str "black"), ("width", HVal.num 2)])
  let (h12, shape1Ref) := alloc h11 (HObj.fields
    [("type", HVal.str "line"), ("x0", HVal.num 0), ("y0", returnValueSize),
     ("x1", HVal.num 1), ("y1", returnValueSize),
     ("xref", HVal.str "paper"), ("yref", HVal.str "y"), ("line", line1Ref)])
  let (h13, line2Ref) := alloc h12 (HObj.fields
    [("color", HVal.str "grey"), ("width", HVal.num 2), ("dash", HVal.str "dot")])
  let (h14, shape2Ref) := alloc h13 (HObj.fields
    [("type", HVal.str "rect"), ("x0", HVal.num (45/100)), ("x1", HVal.num (154/100)),
     ("y0", hSub returnValueSize (HVal.num 4)),
     ("y1", hAdd (hAdd returnValueSize frameSize) (HVal.num 4)),
     ("xref", HVal.str "x"), ("yref", HVal.str "y"), ("line", line2Ref)])
  let (h15, shapeListRef) := alloc h14 (HObj.elems [shape1Ref, shape2Ref])
  alloc h15 (HObj.fields
    [("barmode", HVal.str "stack"), ("title", title), ("xaxis", xaxisRef),
     ("yaxis", yaxisRef), ("showlegend", HVal.bool false),
     ("uniformtext", uniformtextRef), ("margin", marginRef),
     ("annotations", annListRef), ("shapes", shapeListRef)])

/-- `callArgs.map(...)` at the heap layer: per element, read `name`,
`size`, `color` (throwing on `null`/`undefined`), then allocate that
element's bar segment. -/
def mapArgsH : Heap → List HVal → Nat → Heap × Except String (List HVal)
  | h, [], _ => (h, Except.ok [])
  | h, e :: rest, index =>
    match e with
    | .null => (h, Except.error "TypeError: cannot destructure property of null")
    | .undefined => (h, Except.error "TypeError: cannot destructure property of undefined")
    | _ =>
      let name := hGetField h e "name"
      let size := hGetField h e "size"
      let color := hGetField h e "color"
      let (h1, bar) := barStackH h DURING_CALL size color ""
        ("Argument " ++ toString index ++ " (" ++ displayH name ++ ")")
      match mapArgsH h1 rest (index + 1) with
      | (h2, Except.ok bars) => (h2, Except.ok (bar :: bars))
      | (h2, Except.error msg) => (h2, Except.error msg)

/-- The frame-size expression at the heap layer (same shape as the
source's `callStackFrameSize` initializer). -/
def callStackFrameSizeH (returnValueSize rvStack argSizeSum lr padding : HVal) :
    HVal :=
  hAdd (hAdd (hAdd (hAdd (hAdd (HVal.num 0)
    (hMul returnValueSize
      (if truthyH rvStack then HVal.num 1 else HVal.num 0)))
    argSizeSum)
    (if truthyH lr then HVal.num 4 else HVal.num 0))
    (HVal.num 4))
    padding

/-- The data array of the `Plotly.newPlot` call at the heap layer: the
bar segments allocated in evaluation order, then the array cell itself.
Returns the reference to the array, or the `TypeError` propagated out of
`callArgs.map`. -/
def buildDataH (h : Heap) (returnValueSize rvStack lr padding : HVal)
    (elems : List HVal) : Heap × Except String HVal :=
  let (h1, beforeBar) := barStackH h BEFORE_CALL returnValueSize
    (HVal.str "lightgrey") "" RETURN_VARIABLE
  let (h2, duringRvBar) := barStackH h1 DURING_CALL returnValueSize
    (if truthyH rvStack then HVal.str "lightgrey" else HVal.str "lightblue")
    (if truthyH rvStack then "" else "/") RETURN_VARIABLE
  let (h3, lrBars) :=
    if truthyH lr then
      let (h3', b) := barStackH h2 DURING_CALL (HVal.num 4)
        (HVal.str "lightgreen") "" "Link Register"
      (h3', [b])
    else (h2, [])
  let (h4, fpBar) := barStackH h3 DURING_CALL (HVal.num 4)
    (HVal.str "lightgreen") "" "Frame Pointer"
  match mapArgsH h4 elems 0 with
  | (h5, Except.error msg) => (h5, Except.error msg)
  | (h5, Except.ok argBars) =>
    let (h6, dupBars) :=
      if truthyH rvStack then
        let (h6', b) := barStackH h5 DURING_CALL returnValueSize
          (HVal.str "lightblue") "/" "Return Value"
        (h6', [b])
      else (h5, [])
    let (h7, padBar) := barStackH h6 DURING_CALL padding
      (HVal.str "white") "" "Padding"
    let (h8, afterBar) := barStackH h7 AFTER_CALL returnValueSize
      (HVal.str "lightblue") "" RETURN_VARIABLE
    let (h9, dataRef) := alloc h8 (HObj.elems
      ([beforeBar, duringRvBar] ++ lrBars ++ [fpBar] ++ argBars
        ++ dupBars ++ [padBar, afterBar]))
    (h9, Except.ok dataRef)

/-- `createCallStackChart` at the heap layer, in source order: validate
(reads only), destructure (reads only), compute the frame size (reads
only; `TypeError` when `callArgs` is not an array reference), allocate the
`layout` literal, then allocate the data array's segments in the order of
the `Plotly.newPlot` argument list. On success the result carries the
chart-target id value and the references to the data array and the layout
— the latter two freshly allocated. The `Plotly.newPlot` call itself and
the final DOM append of the attribution link are the external collaborator
boundary and are outside the model. -/
def createCallStackChartH (h : Heap) (options : HVal) :
    Heap × Except String (HVal × HVal × HVal) :=
  match firstTypeMismatchH h options with
  | some (arg, ty) => (h, Except.error (validationMessage arg ty))
  | none =>
    let id := hGetField h options "id"
    let title := hGetField h options "title"
    let returnValueSize := hGetField h options "returnValueSize"
    let returnValueOnCallStack := hGetField h options "returnValueOnCallStack"
    let callArgs := hGetField h options "callArgs"
    let linkRegister := hGetField h options "linkRegister"
    let padding := hGetField h options "padding"
    let yMax := hGetField h options "yMax"
    match callArgs with
    | .ref a =>
      match h.get? a with
      | some (HObj.elems elems) =>
        match reduceSizesH h elems (HVal.num 0) with
        | Except.error msg => (h, Except.error msg)
        | Except.ok argSizeSum =>
          let frameSize := callStackFrameSizeH returnValueSize
            returnValueOnCallStack argSizeSum linkRegister padding
          let (h1, layoutRef) := layoutH h title returnValueSize frameSize yMax
          match buildDataH h1 returnValueSize returnValueOnCallStack
              linkRegister padding elems with
          | (h2, Except.error msg) => (h2, Except.error msg)
          | (h2, Except.ok dataRef) => (h2, Except.ok (id, dataRef, layoutRef))
      | _ => (h, Except.error "TypeError: callArgs.reduce is not a function")
    | _ => (h, Except.error "TypeError: callArgs.reduce is not a function")

/-! ## Concrete inputs used by the witnesses -/

/-- A well-formed options object at the dynamic layer, the spec's worked
example. -/
def optionsValidDyn : OptionsObject :=
  [("id", .str "chart"), ("title", .str "example"), ("returnValueSize", .num 4),
   ("returnValueOnCallStack", .bool false),
   ("callArgs", JSValue.arr [JSValue.obj
     [("name", .str "x"), ("size", .num 4), ("color", .str "red")]]),
   ("linkRegister", .bool true), ("padding", .num 4), ("yMax", .num 24)]

/-- The same options object with a non-boolean (string) `linkRegister`. -/
def optionsBadLinkRegister : OptionsObject :=
  [("id", .str "chart"), ("title", .str "example"), ("returnValueSize", .num 4),
   ("returnValueOnCallStack", .bool false),
   ("callArgs", JSValue.arr [JSValue.obj
     [("name", .str "x"), ("size", .num 4), ("color", .str "red")]]),
   ("linkRegister", .str "yes"), ("padding", .num 4), ("yMax", .num 24)]

/-- An options object whose every field passes the `typeof` table —
`typeof null === 'object'`, so `callArgs: null` passes — but whose
`callArgs` is not an array. -/
def optionsNullCallArgs : OptionsObject :=
  [("id", .str "chart"), ("title", .str "example"), ("returnValueSize", .num 4),
   ("returnValueOnCallStack", .bool false), ("callArgs", JSValue.null),
   ("linkRegister", .bool true), ("padding", .num 4), ("yMax", .num 24)]

/-- `optionsValidDyn` with an extra, unrecognized field prepended. -/
def optionsJunkField : OptionsObject :=
  ("somethingElse", JSValue.arr [JSValue.nan]) :: optionsValidDyn

/-- An options object with two mistyped fields, `linkRegister` (earlier in
the table) and `padding` (later). -/
def optionsTwoMistyped : OptionsObject :=
  [("id", .str "chart"), ("title", .str "example"), ("returnValueSize", .num 4),
   ("returnValueOnCallStack", .bool false),
   ("callArgs", JSValue.arr []),
   ("linkRegister", .num 1), ("padding", .str "4"), ("yMax", .num 24)]

/-- `h'` extends `h`: everything in `h'` beyond `h` is newly allocated at
the end. -/
def heapExtends (h h' : Heap) : Prop := ∃ t, h' = h ++ t

/-- A concrete three-cell heap: the options object at address 0, its
`callArgs` array at address 1, the single argument descriptor at
address 2. -/
def exampleHeap : Heap :=
  [HObj.fields
     [("id", .str "chart"), ("title", .str "example"),
      ("returnValueSize", .num 4), ("returnValueOnCallStack", .bool false),
      ("callArgs", .ref 1), ("linkRegister", .bool true),
      ("padding", .num 4), ("yMax", .num 24)],
   HObj.elems [.ref 2],
   HObj.fields [("name", .str "x"), ("size", .num 4), ("color", .str "red")]]

/-! ## Helper lemmas -/

/-- The source's `reduce` over argument sizes is the sum of the sizes. -/
theorem foldl_add_sizes (l : List CallArg) (acc : ℚ) :
    List.foldl (fun acc a => acc + a.size) acc l
      = acc + (l.map CallArg.size).sum := by
  induction l generalizing acc with
  | nil => simp
  | cons a t ih => simp [List.foldl, ih]; ring

/-- Filtering the per-argument segments by x category keeps all of them. -/
theorem filter_x_during_map (l : List (Nat × CallArg)) :
    (l.map (fun p =>
        barStack DURING_CALL p.2.size p.2.color "" (argText p.1 p.2.name))).filter
      (fun b => b.x == DURING_CALL)
    = l.map (fun p =>
        barStack DURING_CALL p.2.size p.2.color "" (argText p.1 p.2.name)) := by
  apply List.filter_eq_self.mpr
  intro b hb
  obtain ⟨p, _, rfl⟩ := List.mem_map.mp hb
  simp [barStack]

/-- The full During Call column, closed form (shared by several claims). -/
theorem duringCallSegments_eq (o : ArgumentType) :
    duringCallSegments o =
      [barStack DURING_CALL o.returnValueSize
        (if o.returnValueOnCallStack then "lightgrey" else "lightblue")
        (if o.returnValueOnCallStack then "" else "/") RETURN_VARIABLE]
      ++ (if o.linkRegister then
            [barStack DURING_CALL 4 "lightgreen" "" "Link Register"] else [])
      ++ [barStack DURING_CALL 4 "lightgreen" "" "Frame Pointer"]
      ++ o.callArgs.enum.map (fun p =>
            barStack DURING_CALL p.2.size p.2.color "" (argText p.1 p.2.name))
      ++ (if o.returnValueOnCallStack then
            [barStack DURING_CALL o.returnValueSize "lightblue" "/" "Return Value"]
          else [])
      ++ [barStack DURING_CALL o.padding "white" "" "Padding"] := by
  unfold duringCallSegments plotData
  cases o.returnValueOnCallStack <;> cases o.linkRegister <;>
    simp [List.filter_append, filter_x_during_map, barStack,
      BEFORE_CALL, DURING_CALL, AFTER_CALL, List.filter] <;>
    (intro a i c _ h; subst h; rfl)

/-- Every per-argument segment label starts with the character `A`. -/
theorem argText_head (i : Nat) (n : String) :
    (argText i n).data.head? = some 'A' := by
  have h1 : "Argument ".data = 'A' :: "rgument ".data := rfl
  simp [argText, String.data_append, h1]

/-- A string whose first character is not `A` is not a per-argument
segment label. -/
theorem argText_ne (i : Nat) (n : String) (t : String)
    (h : t.data.head? ≠ some 'A') : argText i n ≠ t := by
  intro he
  exact h (he ▸ argText_head i n)

/-- Among the During Call segments, the per-argument ones never carry one
of the four fixed labels. -/
theorem filter_text_fixed_map (l : List (Nat × CallArg)) (t : String)
    (h : t.data.head? ≠ some 'A') :
    (l.map (fun p =>
        barStack DURING_CALL p.2.size p.2.color "" (argText p.1 p.2.name))).filter
      (fun b => b.text == t) = [] := by
  apply List.filter_eq_nil_iff.mpr
  intro b hb
  obtain ⟨p, _, rfl⟩ := List.mem_map.mp hb
  simp [barStack]
  exact argText_ne p.1 p.2.name t h

/-- Conversely, every per-argument segment label starts with `A`, so the
head-character test keeps all per-argument segments. -/
theorem filter_headA_map (l : List (Nat × CallArg)) :
    (l.map (fun p =>
        barStack DURING_CALL p.2.size p.2.color "" (argText p.1 p.2.name))).filter
      (fun b => b.text.data.head? == some 'A')
    = l.map (fun p =>
        barStack DURING_CALL p.2.size p.2.color "" (argText p.1 p.2.name)) := by
  apply List.filter_eq_self.mpr
  intro b hb
  obtain ⟨p, _, rfl⟩ := List.mem_map.mp hb
  simp [barStack, argText_head]

/-! ## Claims about the frame-size computation -/

/-- Claim C1: for every options object accepted by validation, the
computed frame size equals `(returnValueOnCallStack ? returnValueSize : 0)
+ sum(arg.size for arg in callArgs) + (linkRegister ? 4 : 0) + 4 +
padding` (the `specFrameSize` closed form); in particular, on the worked
example (`returnValueSize=4, returnValueOnCallStack=false,
callArgs=[{name:"x",size:4,color:"red"}], linkRegister=true, padding=4`)
the frame size is `0 + 4 + 4 + 4 + 4 = 16`. -/
theorem callStackFrameSize_eq_specFrameSize :
    (∀ o : ArgumentType, callStackFrameSize o = specFrameSize o) ∧
    callStackFrameSize exampleOptions = 16 := by
  constructor
  · intro o
    unfold callStackFrameSize specFrameSize
    rw [foldl_add_sizes]
    cases o.returnValueOnCallStack <;> cases o.linkRegister <;> simp
  · norm_num [callStackFrameSize, exampleOptions]

/-- Claim C8: changing one size-contributing numeric field by `d` —
`returnValueSize` while the return value is on the call stack, the size of
any single `callArgs` entry, or `padding` — changes the computed frame
size by exactly `d`, all else fixed; and toggling `linkRegister` from
`false` to `true` changes it by exactly `4`. -/
theorem callStackFrameSize_delta (o : ArgumentType) (d : ℚ) :
    (callStackFrameSize { o with
        returnValueOnCallStack := true
        returnValueSize := o.returnValueSize + d }
      = callStackFrameSize { o with returnValueOnCallStack := true } + d) ∧
    (∀ (pre post : List CallArg) (a : CallArg),
      callStackFrameSize { o with callArgs :=
          pre ++ { a with size := a.size + d } :: post }
        = callStackFrameSize { o with callArgs := pre ++ a :: post } + d) ∧
    (callStackFrameSize { o with padding := o.padding + d }
      = callStackFrameSize o + d) ∧
    (callStackFrameSize { o with linkRegister := true }
      = callStackFrameSize { o with linkRegister := false } + 4) := by
  refine ⟨?_, ?_, ?_, ?_⟩
  · unfold callStackFrameSize
    simp only [if_true, ite_true]
    ring
  · intro pre post a
    unfold callStackFrameSize
    simp only [foldl_add_sizes, List.map_append, List.sum_append, List.map_cons,
      List.sum_cons]
    ring
  · unfold callStackFrameSize
    ring
  · unfold callStackFrameSize
    simp only [ite_true, ite_false, Bool.false_eq_true, if_false]
    ring

/-! ## Claims about the segment assembly -/

/-- Claim C4: for every valid options object, the During Call column's
segments appear bottom-to-top in exactly this order: the return-value
segment (solid `lightgrey` when `returnValueOnCallStack`, hatched
`lightblue` when register-resident), then a Link Register segment only if
`linkRegister`, then the Frame Pointer segment, then one segment per
`callArgs` entry in input order, then a duplicate `Return Value` segment
only if `returnValueOnCallStack`, then the Padding segment. -/
theorem duringCallColumn_order (o : ArgumentType) :
    duringCallSegments o =
      [barStack DURING_CALL o.returnValueSize
        (if o.returnValueOnCallStack then "lightgrey" else "lightblue")
        (if o.returnValueOnCallStack then "" else "/") RETURN_VARIABLE]
      ++ (if o.linkRegister then
            [barStack DURING_CALL 4 "lightgreen" "" "Link Register"] else [])
      ++ [barStack DURING_CALL 4 "lightgreen" "" "Frame Pointer"]
      ++ o.callArgs.enum.map (fun p =>
            barStack DURING_CALL p.2.size p.2.color "" (argText p.1 p.2.name))
      ++ (if o.returnValueOnCallStack then
            [barStack DURING_CALL o.returnValueSize "lightblue" "/" "Return Value"]
          else [])
      ++ [barStack DURING_CALL o.padding "white" "" "Padding"] :=
  duringCallSegments_eq o

/-- Claim C5: with `returnValueOnCallStack = false` the During Call column
contains exactly one `Return Value` segment, styled register-resident
(`lightblue` with the `/` hatch pattern), and no duplicate; with
`returnValueOnCallStack = true` it contains both the initial (solid
`lightgrey`) segment and the second stack-resident duplicate. -/
theorem returnValueSegments_of_flag (o : ArgumentType) :
    (duringCallSegments o).filter (fun b => b.text == RETURN_VARIABLE) =
      if o.returnValueOnCallStack then
        [barStack DURING_CALL o.returnValueSize "lightgrey" "" RETURN_VARIABLE,
         barStack DURING_CALL o.returnValueSize "lightblue" "/" "Return Value"]
      else
        [barStack DURING_CALL o.returnValueSize "lightblue" "/" RETURN_VARIABLE] := by
  have hA : (RETURN_VARIABLE.data.head? ≠ some 'A') := by decide
  rw [duringCallSegments_eq]
  cases o.returnValueOnCallStack <;> cases o.linkRegister <;>
    simp [List.filter_append, filter_text_fixed_map _ _ hA, List.filter,
      barStack, RETURN_VARIABLE] <;>
    (intro a i c _ h; subst h; exact argText_ne i c.name _ hA)

/-- Claim C6: with `linkRegister = false` no Link Register segment appears
anywhere in the emitted data array; with `linkRegister = true` exactly one
does, with size 4. -/
theorem linkRegisterSegments_of_flag (o : ArgumentType) :
    (plotData o).filter (fun b => b.text == "Link Register") =
      if o.linkRegister then
        [barStack DURING_CALL 4 "lightgreen" "" "Link Register"] else [] := by
  have hA : (("Link Register" : String).data.head? ≠ some 'A') := by decide
  unfold plotData
  cases o.returnValueOnCallStack <;> cases o.linkRegister <;>
    simp [List.filter_append, filter_text_fixed_map _ _ hA, List.filter,
      barStack, RETURN_VARIABLE] <;>
    (intro a i c _ h; subst h; exact argText_ne i c.name _ hA)

/-- Claim C7: the per-argument segments of the emitted data array (the
segments whose label `Argument i (name)` starts with `A`; the four fixed
labels start with `R`, `L`, `F`, `P`) number exactly `callArgs.length`,
appear in the order of the `callArgs` entries, and carry each entry's
`size` and `color` verbatim. -/
theorem argumentSegments_verbatim (o : ArgumentType) :
    ((plotData o).filter (fun b => b.text.data.head? == some 'A')).length
        = o.callArgs.length ∧
    ((plotData o).filter (fun b => b.text.data.head? == some 'A')).map
        (fun b => (b.y, b.color))
      = o.callArgs.map (fun a => (a.size, a.color)) ∧
    (plotData o).filter (fun b => b.text.data.head? == some 'A')
      = o.callArgs.enum.map (fun p =>
          barStack DURING_CALL p.2.size p.2.color "" (argText p.1 p.2.name)) := by
  have hchar : (plotData o).filter (fun b => b.text.data.head? == some 'A')
      = o.callArgs.enum.map (fun p =>
          barStack DURING_CALL p.2.size p.2.color "" (argText p.1 p.2.name)) := by
    have hR : ((RETURN_VARIABLE.data.head? == some 'A') = false) := by decide
    have hL : (((("Link Register" : String)).data.head? == some 'A') = false) := by decide
    have hF : (((("Frame Pointer" : String)).data.head? == some 'A') = false) := by decide
    have hP : (((("Padding" : String)).data.head? == some 'A') = false) := by decide
    unfold plotData
    cases o.returnValueOnCallStack <;> cases o.linkRegister <;>
      simp [List.filter_append, filter_headA_map, List.filter, barStack,
        RETURN_VARIABLE, hR, hL, hF, hP] <;>
      (intro a i c _ h; subst h; exact argText_head i c.name)
  refine ⟨?_, ?_, hchar⟩
  · rw [hchar]
    simp
  · rw [hchar, List.map_map]
    have : ((fun b : BarStack => (b.y, b.color)) ∘ (fun p : Nat × CallArg =>
        barStack DURING_CALL p.2.size p.2.color "" (argText p.1 p.2.name)))
        = (fun a : CallArg => (a.size, a.color)) ∘ Prod.snd := by
      funext p
      rfl
    rw [this, ← List.map_map, List.enum_map_snd]

/-! ## Claims about validation and the failure model -/

/-- `find?` returns the marked element when everything before it fails
the predicate and it satisfies it. -/
theorem find_eq_of_prefix {α : Type} (p : α → Bool) (l1 l2 : List α) (a : α)
    (hpre : ∀ x ∈ l1, p x = false) (ha : p a = true) :
    (l1 ++ a :: l2).find? p = some a := by
  induction l1 with
  | nil => simpa using List.find?_cons_of_pos l2 ha
  | cons b t ih =>
    have hb : ¬ p b = true := by simp [hpre b (by simp)]
    rw [List.cons_append, List.find?_cons_of_neg _ hb]
    exact ih (fun x hx => hpre x (by simp [hx]))

/-- When some element satisfies the predicate, `find?` returns the first
such element: one whose preceding elements all fail the predicate. -/
theorem find_first_of_exists {α : Type} (p : α → Bool) (l : List α) (a : α)
    (ha : a ∈ l) (hpa : p a = true) :
    ∃ b l1 l2, l.find? p = some b ∧ l = l1 ++ b :: l2 ∧ p b = true ∧
      ∀ x ∈ l1, p x = false := by
  induction l with
  | nil => cases ha
  | cons c t ih =>
    by_cases hc : p c = true
    · exact ⟨c, [], t, List.find?_cons_of_pos t hc, rfl, hc, by simp⟩
    · have hat : a ∈ t := by
        rcases List.mem_cons.mp ha with h | h
        · exact absurd (h ▸ hpa) hc
        · exact h
      obtain ⟨b, l1, l2, h1, h2, h3, h4⟩ := ih hat
      refine ⟨b, c :: l1, l2, ?_, by simp [h2], h3, ?_⟩
      · rw [List.find?_cons_of_neg _ hc, h1]
      · intro x hx
        rcases List.mem_cons.mp hx with h | h
        · subst h; simpa using hc
        · exact h4 x h

/-- Claim C2: when some recognized field's runtime type differs from the
expected-type table, `createCallStackChart` throws a validation error whose
message names the first mismatched field, and — the result being
`Except.error` — no chart-description object is constructed and no
rendering or DOM side effect happens. (The instance with a non-boolean
`linkRegister` is the witness below.) -/
theorem createCallStackChart_error_first_mismatch
    (options : OptionsObject) (l1 l2 : List (String × String)) (arg ty : String)
    (hsplit : argumentTypeNames = l1 ++ (arg, ty) :: l2)
    (hpre : ∀ p ∈ l1, typeofJS (getField options p.1) = p.2)
    (hmis : typeofJS (getField options arg) ≠ ty) :
    createCallStackChart options = Except.error (validationMessage arg ty) := by
  have hfind : firstTypeMismatch options = some (arg, ty) := by
    unfold firstTypeMismatch
    rw [hsplit]
    apply find_eq_of_prefix
    · intro x hx
      simp [hpre x hx]
    · simpa using hmis
  unfold createCallStackChart
  rw [hfind]

/-- Witness for C2, the spec's test case: a string-valued `linkRegister`
(all earlier table entries well-typed) is rejected with the error naming
`linkRegister`, and no chart is produced. -/
theorem createCallStackChart_error_first_mismatch_witness :
    createCallStackChart optionsBadLinkRegister
      = Except.error "Expected linkRegister to be of type boolean" :=
  createCallStackChart_error_first_mismatch optionsBadLinkRegister
    [("id", "string"), ("title", "string"), ("returnValueSize", "number"),
     ("returnValueOnCallStack", "boolean"), ("callArgs", "object")]
    [("padding", "number"), ("yMax", "number")]
    "linkRegister" "boolean" rfl
    (by intro p hp; fin_cases hp <;> rfl)
    (by decide)

/-- `find?` only depends on the predicate's values on the list. -/
theorem find_congr_on {α : Type} (p q : α → Bool) (l : List α)
    (h : ∀ x ∈ l, p x = q x) : l.find? p = l.find? q := by
  induction l with
  | nil => rfl
  | cons c t ih =>
    have hc := h c (by simp)
    by_cases hpc : p c = true
    · rw [List.find?_cons_of_pos t hpc, List.find?_cons_of_pos t (hc ▸ hpc)]
    · rw [List.find?_cons_of_neg t hpc, List.find?_cons_of_neg t (hc ▸ hpc)]
      exact ih (fun x hx => h x (by simp [hx]))

/-- Claim C9: validation examines exactly the eight recognized fields, in
the fixed order of `argumentTypeNames` (`id`, `title`, `returnValueSize`,
`returnValueOnCallStack`, `callArgs`, `linkRegister`, `padding`, `yMax`):
(1) two options objects agreeing on those eight fields validate
identically, so fields outside the table are never examined and can never
cause a validation error; (2) whenever some recognized field is mistyped,
the reported entry is the earliest mistyped one — it is mistyped and every
table entry before it is well-typed. -/
theorem firstTypeMismatch_order_and_scope :
    (∀ (o o' : OptionsObject),
      (∀ p ∈ argumentTypeNames, getField o p.1 = getField o' p.1) →
      firstTypeMismatch o = firstTypeMismatch o') ∧
    (∀ (o : OptionsObject) (p : String × String), p ∈ argumentTypeNames →
      typeofJS (getField o p.1) ≠ p.2 →
      ∃ q l1 l2, firstTypeMismatch o = some q ∧
        argumentTypeNames = l1 ++ q :: l2 ∧
        typeofJS (getField o q.1) ≠ q.2 ∧
        ∀ r ∈ l1, typeofJS (getField o r.1) = r.2) := by
  constructor
  · intro o o' hagree
    unfold firstTypeMismatch
    apply find_congr_on
    intro x hx
    rw [hagree x hx]
  · intro o p hp hmis
    obtain ⟨q, l1, l2, h1, h2, h3, h4⟩ :=
      find_first_of_exists
        (fun p => !(typeofJS (getField o p.1) == p.2)) argumentTypeNames p hp
        (by simpa using hmis)
    refine ⟨q, l1, l2, h1, h2, by simpa using h3, ?_⟩
    intro r hr
    simpa using h4 r hr

/-- Witness for C9: (1) an extra unrecognized field does not change the
validation outcome; (2) with both `linkRegister` and `padding` mistyped,
the reported field is `linkRegister`, the earlier of the two in the
table. -/
theorem firstTypeMismatch_order_and_scope_witness :
    firstTypeMismatch optionsJunkField = firstTypeMismatch optionsValidDyn ∧
    ∃ q l1 l2, firstTypeMismatch optionsTwoMistyped = some q ∧
      argumentTypeNames = l1 ++ q :: l2 ∧
      typeofJS (getField optionsTwoMistyped q.1) ≠ q.2 ∧
      ∀ r ∈ l1, typeofJS (getField optionsTwoMistyped r.1) = r.2 :=
  ⟨firstTypeMismatch_order_and_scope.1 optionsJunkField optionsValidDyn
      (by intro p hp; fin_cases hp <;> rfl),
   firstTypeMismatch_order_and_scope.2 optionsTwoMistyped ("padding", "number")
      (by simp [argumentTypeNames]) (by decide)⟩

/-- The `reduce` over argument sizes succeeds on any array whose elements
are not `null`/`undefined`. -/
theorem reduceSizes_ok (l : List JSValue) (acc : JSValue)
    (h : ∀ e ∈ l, e ≠ JSValue.null ∧ e ≠ JSValue.undefined) :
    ∃ v, reduceSizes l acc = Except.ok v := by
  induction l generalizing acc with
  | nil => exact ⟨acc, rfl⟩
  | cons e t ih =>
    have he := h e (by simp)
    have ht : ∀ x ∈ t, x ≠ JSValue.null ∧ x ≠ JSValue.undefined :=
      fun x hx => h x (by simp [hx])
    cases e
    case null => exact absurd rfl he.1
    case undefined => exact absurd rfl he.2
    all_goals (simp only [reduceSizes]; exact ih _ ht)

/-- The `map` over argument descriptors succeeds on any array whose
elements are not `null`/`undefined`. -/
theorem mapArgs_ok (l : List JSValue) (index : Nat)
    (h : ∀ e ∈ l, e ≠ JSValue.null ∧ e ≠ JSValue.undefined) :
    ∃ bars, mapArgs l index = Except.ok bars := by
  induction l generalizing index with
  | nil => exact ⟨[], rfl⟩
  | cons e t ih =>
    have he := h e (by simp)
    have ht : ∀ x ∈ t, x ≠ JSValue.null ∧ x ≠ JSValue.undefined :=
      fun x hx => h x (by simp [hx])
    cases e
    case null => exact absurd rfl he.1
    case undefined => exact absurd rfl he.2
    all_goals obtain ⟨bars, hb⟩ := ih (index + 1) ht
    all_goals simp [mapArgs, hb]

/-- Counterexample to claim C3 as stated: with `callArgs: null` every
`typeof` check passes (`typeof null === 'object'`), yet the function
throws — after validation — a `TypeError` from `callArgs.reduce`, which is
not a validation-type-mismatch error. The operation is not
"validation-failure-only" over all inputs. -/
theorem createCallStackChart_nonValidation_error :
    firstTypeMismatch optionsNullCallArgs = none ∧
    createCallStackChart optionsNullCallArgs
      = Except.error "TypeError: callArgs.reduce is not a function" :=
  ⟨rfl, rfl⟩

/-- Claim C3 (amended): errors are raised only before any rendering side
effect, but they are not limited to validation errors: `callArgs` values
that pass the `typeof === 'object'` check without being an array of
destructurable entries (e.g. `null`) throw a `TypeError` after
validation. For every options object that passes the type-table check and
whose `callArgs` is an array with no `null`/`undefined` element, the
remainder of the function — frame-size computation and chart-description
assembly — raises no error: the invocation is all-or-nothing. -/
theorem createCallStackChart_ok_of_valid
    (options : OptionsObject) (elems : List JSValue)
    (hval : firstTypeMismatch options = none)
    (hargs : getField options "callArgs" = JSValue.arr elems)
    (helems : ∀ e ∈ elems, e ≠ JSValue.null ∧ e ≠ JSValue.undefined) :
    ∃ chart, createCallStackChart options = Except.ok chart := by
  obtain ⟨v, hv⟩ := reduceSizes_ok elems (.num 0) helems
  obtain ⟨bars, hb⟩ := mapArgs_ok elems 0 helems
  unfold createCallStackChart
  rw [hval]
  simp [buildChart, hargs, hv, hb]

/-- Witness for the amended C3: the worked example passes validation, its
`callArgs` is a proper array, and the call succeeds. -/
theorem createCallStackChart_ok_of_valid_witness :
    ∃ chart, createCallStackChart optionsValidDyn = Except.ok chart :=
  createCallStackChart_ok_of_valid optionsValidDyn
    [JSValue.obj [("name", .str "x"), ("size", .num 4), ("color", .str "red")]]
    rfl rfl
    (by intro e he
        simp only [List.mem_singleton] at he
        subst he
        exact ⟨by simp, by simp⟩)

theorem heapExtends_refl (h : Heap) : heapExtends h h := ⟨[], by simp⟩

theorem heapExtends_trans {h1 h2 h3 : Heap}
    (a : heapExtends h1 h2) (b : heapExtends h2 h3) : heapExtends h1 h3 := by
  obtain ⟨t1, rfl⟩ := a
  obtain ⟨t2, rfl⟩ := b
  exact ⟨t1 ++ t2, by simp⟩

theorem heapExtends_snoc {h hx : Heap} (e : heapExtends h hx) (o : HObj) :
    heapExtends h (hx ++ [o]) :=
  heapExtends_trans e ⟨[o], rfl⟩

theorem heapExtends_barStackH (h : Heap) (x : String) (y color : HVal)
    (shape text : String) :
    heapExtends h (barStackH h x y color shape text).1 := by
  simp only [barStackH, alloc]
  exact heapExtends_snoc (heapExtends_snoc (heapExtends_snoc (heapExtends_snoc
    (heapExtends_snoc (heapExtends_snoc (heapExtends_refl h) _) _) _) _) _) _

/-- Equation form of `heapExtends_barStackH`. -/
theorem barStackH_ext {h : Heap} {x : String} {y color : HVal}
    {shape text : String} {h' : Heap} {b : HVal}
    (he : barStackH h x y color shape text = (h', b)) : heapExtends h h' := by
  have hx := heapExtends_barStackH h x y color shape text
  rw [he] at hx
  exact hx

theorem heapExtends_layoutH (h : Heap) (title returnValueSize frameSize yMax : HVal) :
    heapExtends h (layoutH h title returnValueSize frameSize yMax).1 := by
  simp only [layoutH, alloc]
  exact heapExtends_snoc (heapExtends_snoc (heapExtends_snoc (heapExtends_snoc
    (heapExtends_snoc (heapExtends_snoc (heapExtends_snoc (heapExtends_snoc
    (heapExtends_snoc (heapExtends_snoc (heapExtends_snoc (heapExtends_snoc
    (heapExtends_snoc (heapExtends_snoc (heapExtends_snoc (heapExtends_snoc
    (heapExtends_refl h) _) _) _) _) _) _) _) _) _) _) _) _) _) _) _) _

theorem heapExtends_mapArgsH (l : List HVal) :
    ∀ (h : Heap) (i : Nat), heapExtends h (mapArgsH h l i).1 := by
  induction l with
  | nil => intro h i; exact heapExtends_refl h
  | cons e rest ih =>
    intro h i
    rcases hbs : barStackH h DURING_CALL (hGetField h e "size")
      (hGetField h e "color") ""
      ("Argument " ++ toString i ++ " (" ++ displayH (hGetField h e "name") ++ ")")
      with ⟨h1, bar⟩
    rcases hm : mapArgsH h1 rest (i + 1) with ⟨h2, r⟩
    have E1 : heapExtends h h1 := barStackH_ext hbs
    have E2 : heapExtends h1 h2 := by
      have hx := ih h1 (i + 1)
      rw [hm] at hx
      exact hx
    have E3 : heapExtends h h2 := heapExtends_trans E1 E2
    cases r
    all_goals cases e
    all_goals simp only [mapArgsH, hbs, hm]
    all_goals first
      | exact heapExtends_refl h
      | exact E3

/-- Equation form of `heapExtends_mapArgsH`. -/
theorem mapArgsH_ext {h : Heap} {l : List HVal} {i : Nat} {h' : Heap}
    {r : Except String (List HVal)} (he : mapArgsH h l i = (h', r)) :
    heapExtends h h' := by
  have hx := heapExtends_mapArgsH l h i
  rw [he] at hx
  exact hx

/-- Equation form of allocation extension. -/
theorem alloc_ext {h : Heap} {o : HObj} {h' : Heap} {r : HVal}
    (he : alloc h o = (h', r)) : heapExtends h h' := by
  have hx : heapExtends h (alloc h o).1 := ⟨[o], rfl⟩
  rw [he] at hx
  exact hx

theorem heapExtends_buildDataH (h : Heap) (rv rvStack lr padding : HVal)
    (elems : List HVal) :
    heapExtends h (buildDataH h rv rvStack lr padding elems).1 := by
  unfold buildDataH
  split
  rename_i h1 b1 hb1
  split
  rename_i h2 b2 hb2
  split
  rename_i h3 lrBars hb3
  have E3 : heapExtends h2 h3 := by
    cases hc : truthyH lr with
    | false =>
        rw [hc] at hb3
        simp only [Bool.false_eq_true, if_false] at hb3
        obtain ⟨rfl, rfl⟩ := Prod.mk.injEq .. ▸ hb3
        exact heapExtends_refl h2
    | true =>
        rw [hc] at hb3
        rcases hbb : barStackH h2 DURING_CALL (HVal.num 4)
          (HVal.str "lightgreen") "" "Link Register" with ⟨h3x, bx⟩
        rw [hbb] at hb3
        simp only [if_true] at hb3
        obtain ⟨rfl, rfl⟩ := Prod.mk.injEq .. ▸ hb3
        exact barStackH_ext hbb
  split
  rename_i h4 fpBar hb4
  have E4 : heapExtends h h4 :=
    heapExtends_trans (barStackH_ext hb1)
      (heapExtends_trans (barStackH_ext hb2)
        (heapExtends_trans E3 (barStackH_ext hb4)))
  split
  · rename_i h5 msg hm
    exact heapExtends_trans E4 (mapArgsH_ext hm)
  · rename_i h5 argBars hm
    have E5 : heapExtends h h5 := heapExtends_trans E4 (mapArgsH_ext hm)
    split
    rename_i h6 dupBars hd
    have E6 : heapExtends h5 h6 := by
      cases hc : truthyH rvStack with
      | false =>
          rw [hc] at hd
          simp only [Bool.false_eq_true, if_false] at hd
          obtain ⟨rfl, rfl⟩ := Prod.mk.injEq .. ▸ hd
          exact heapExtends_refl h5
      | true =>
          rw [hc] at hd
          rcases hbb : barStackH h5 DURING_CALL rv (HVal.str "lightblue") "/"
            "Return Value" with ⟨h6x, bx⟩
          rw [hbb] at hd
          simp only [if_true] at hd
          obtain ⟨rfl, rfl⟩ := Prod.mk.injEq .. ▸ hd
          exact barStackH_ext hbb
    split
    rename_i h7 padBar hp
    split
    rename_i h8 afterBar ha
    split
    rename_i h9 dataRef hal
    exact heapExtends_trans E5 (heapExtends_trans E6
      (heapExtends_trans (barStackH_ext hp)
        (heapExtends_trans (barStackH_ext ha) (alloc_ext hal))))

/-- Equation form of `heapExtends_buildDataH`. -/
theorem buildDataH_ext {h : Heap} {rv rvStack lr padding : HVal}
    {elems : List HVal} {h' : Heap} {r : Except String HVal}
    (he : buildDataH h rv rvStack lr padding elems = (h', r)) :
    heapExtends h h' := by
  have hx := heapExtends_buildDataH h rv rvStack lr padding elems
  rw [he] at hx
  exact hx

theorem heapExtends_createCallStackChartH (h : Heap) (options : HVal) :
    heapExtends h (createCallStackChartH h options).1 := by
  unfold createCallStackChartH
  split
  · exact heapExtends_refl h
  · dsimp only
    split
    · split
      · split
        · exact heapExtends_refl h
        · split
          · rename_i h2 msg hD
            exact heapExtends_trans (heapExtends_layoutH h _ _ _ _)
              (buildDataH_ext hD)
          · rename_i h2 dataRef hD
            exact heapExtends_trans (heapExtends_layoutH h _ _ _ _)
              (buildDataH_ext hD)
      · exact heapExtends_refl h
    · exact heapExtends_refl h

/-- Claim C10: `createCallStackChart` never mutates its `options`
argument: after any invocation — validation failure, `TypeError`, or
success — every pre-existing heap address (hence every field of `options`
and every `callArgs` entry) holds the same value as before the call; the
chart description is built exclusively from freshly allocated objects
appended beyond the old heap. -/
theorem createCallStackChart_no_mutation (h : Heap) (options : HVal)
    (a : Nat) (ha : a < h.length) :
    ((createCallStackChartH h options).1)[a]? = h[a]? := by
  obtain ⟨t, ht⟩ := heapExtends_createCallStackChartH h options
  rw [ht]
  exact List.getElem?_append_left ha

/-- Witness for C10: on the concrete three-cell example heap, the options
object at address 0 is untouched by a (successful) invocation. -/
theorem createCallStackChart_no_mutation_witness :
    ((createCallStackChartH exampleHeap (HVal.ref 0)).1)[0]? = exampleHeap[0]? :=
  createCallStackChart_no_mutation exampleHeap (HVal.ref 0) 0 (by decide)
